import Mathlib

/-!
Verification of the document question-answering HTTP service
(`main.py` and `improved_main.py`) against its specification.

The two FastAPI handler variants are shallowly embedded as pure Lean
functions.  External collaborators (the HTTP fetch via `requests.get`,
`SimpleDirectoryReader(...).load_data()`, `VectorStoreIndex.from_documents`
and `query_engine.query`) are modelled as oracle fields of an `Oracles`
structure: each oracle returns `Except String α`, where `Except.error e`
models the Python call raising an exception whose `str(e)` is `e`.
Side effects on the network and the filesystem are recorded in an explicit
event trace, so that "no fetch happened" or "the temporary file still
exists" become statements about the trace.
-/

namespace Spec2Proof

/-- Observable side effects of one request: network fetches
(`requests.get`), temporary-file creation (`tempfile.NamedTemporaryFile`
with `delete=False`), filesystem reads (`SimpleDirectoryReader(...).load_data()`
on a path), `os.unlink`, index construction
(`VectorStoreIndex.from_documents`) and Answer Generator invocations
(`query_engine.query`). -/
inductive Event where
  | fetchUrl (url : String)
  | createTemp (path : String)
  | readFile (path : String)
  | unlink (path : String)
  | buildIndexCall
  | queryCall
deriving DecidableEq

/-- Result of one HTTP request: `ok answers` is a 200 response whose body is
`HackathonResponse(answers=...)`; `err status detail` is a raised
`HTTPException(status_code=status, detail=detail)` (or, for status 422, the
framework-level validation rejection). -/
inductive HttpResult where
  | ok (answers : List String)
  | err (status : Nat) (detail : String)
deriving DecidableEq

/-- Temp-file paths created by `tempfile.NamedTemporaryFile(delete=False, ...)`
during the traced execution. -/
def createdTemps (tr : List Event) : List String :=
  tr.filterMap fun e =>
    match e with
    | Event.createTemp p => some p
    | _ => none

/-- Paths removed by `os.unlink` during the traced execution. -/
def unlinkedTemps (tr : List Event) : List String :=
  tr.filterMap fun e =>
    match e with
    | Event.unlink p => some p
    | _ => none

/-- Temporary files that still exist on the filesystem once the traced
execution has finished: created but never unlinked. -/
def remainingTemps (tr : List Event) : List String :=
  (createdTemps tr).filter fun p => !((unlinkedTemps tr).contains p)

/-- Python `str.startswith(p)` at character level (`p.data.isPrefixOf`
computes, unlike `String.startsWith`, whose byte-position loop does not
reduce in the kernel). -/
def strStartsWith (s p : String) : Bool :=
  p.data.isPrefixOf s.data

/-- Python `str.strip()`: remove leading and trailing whitespace
(`source_text = node.get_content().strip()` in `main.py` line 170). -/
def pyStrip (s : String) : String :=
  String.mk (((s.data.dropWhile Char.isWhitespace).reverse.dropWhile Char.isWhitespace).reverse)

/-- Character-level model of `main.py` line 175:
`source_text[:500]` followed by `'...' if len(source_text) > 500 else ''`.
Python strings are sequences of code points, modelled as `List Char`. -/
def snippetChars (s : List Char) : List Char :=
  s.take 500 ++ (if 500 < s.length then ['.', '.', '.'] else [])

/-- The `Content:` excerpt rendered for one source node in `main.py`
lines 170 and 175: the node content is stripped and then truncated. -/
def contentSnippet (content : String) : String :=
  String.mk (snippetChars (pyStrip content).data)

/-- One retrieved source node of a query response (`response.source_nodes`
element in `main.py`): its content, its `page_label` metadata (already
defaulted to `"N/A"` when absent) and its rendered relevance score
(`getattr(node, 'score', 'N/A')`, modelled as the rendered string). -/
structure QuerySourceNode where
  content : String
  pageLabel : String
  score : String
deriving DecidableEq

/-- A successful `query_engine.query(question)` response in `main.py`:
`str(response)` and `response.source_nodes`. -/
structure QueryResp where
  answerText : String
  sourceNodes : List QuerySourceNode
deriving DecidableEq

/-- Rendering of one source node, `main.py` lines 165-176. -/
def renderNode (n : QuerySourceNode) (j : Nat) : String :=
  "\nSource " ++ toString j ++ " (Page " ++ n.pageLabel ++ "):\n"
    ++ "Relevance Score: " ++ n.score ++ "\n"
    ++ "Content: " ++ contentSnippet n.content ++ "\n"
    ++ String.mk (List.replicate 50 '-') ++ "\n"

/-- The `for j, node in enumerate(response.source_nodes, 1)` loop of
`main.py` lines 165-176, accumulating the rendered source blocks. -/
def renderNodes : List QuerySourceNode → Nat → String
  | [], _ => ""
  | n :: rest, j => renderNode n j ++ renderNodes rest (j + 1)

/-- The `source_info` block built in `main.py` lines 162-178. -/
def sourceInfo (nodes : List QuerySourceNode) : String :=
  "\n\n--- Sources and Rationale ---\n"
    ++ (match nodes with
        | [] => "No specific sources retrieved for this answer.\n"
        | ns => renderNodes ns 1)

namespace Main

/-- External collaborators of `main.py`'s `run_submission`, as oracles.
`httpGet url` models `requests.get(url)` followed by
`response.raise_for_status()` (an `Except.error` covers both a network
failure and a non-2xx status).  `tmpName` is the name the
`NamedTemporaryFile` call produces.  `loadData path` models
`SimpleDirectoryReader(input_files=[path]).load_data()`; the written bytes
are not modelled, only the path read.  `buildIndex` models
`VectorStoreIndex.from_documents`, `query` models everything inside the
per-question `try` body (the `question[:100]` log slice, the
`query_engine.query(question)` call and `str(response)`). -/
structure Oracles where
  httpGet : String → Except String String
  tmpName : String
  loadData : String → Except String (List String)
  buildIndex : List String → Except String Nat
  query : Nat → String → Except String QueryResp

/-- `main.py` lines 101-132, the document-loading `try` block: if the
document string starts with `http://` or `https://`, fetch it, write a
temporary file, read it back with `SimpleDirectoryReader` and only then
`os.unlink` the temporary file (lines 113-122: on a `load_data` exception
the `unlink` on line 122 is skipped); otherwise the string is treated as a
local file path and read directly (lines 123-126).  Returns the loaded
documents (or the exception text) together with the side-effect trace. -/
def loadDocuments (o : Oracles) (documents : String) :
    Except String (List String) × List Event :=
  if strStartsWith documents "http://" || strStartsWith documents "https://" then
    match o.httpGet documents with
    | Except.error e => (Except.error e, [Event.fetchUrl documents])
    | Except.ok _ =>
        match o.loadData o.tmpName with
        | Except.error e =>
            (Except.error e,
             [Event.fetchUrl documents, Event.createTemp o.tmpName,
              Event.readFile o.tmpName])
        | Except.ok ds =>
            (Except.ok ds,
             [Event.fetchUrl documents, Event.createTemp o.tmpName,
              Event.readFile o.tmpName, Event.unlink o.tmpName])
  else
    match o.loadData documents with
    | Except.error e => (Except.error e, [Event.readFile documents])
    | Except.ok ds => (Except.ok ds, [Event.readFile documents])

/-- `main.py` lines 158-181: the answer built for one question when the
query succeeds — `str(response)` followed by the sources block. -/
def fullAnswer (resp : QueryResp) : String :=
  resp.answerText ++ sourceInfo resp.sourceNodes

/-- One iteration of the per-question loop, `main.py` lines 151-189: the
`try` body produces the annotated answer, the `except` arm appends
`"Error processing question: " + str(e)` instead. -/
def answerOne (o : Oracles) (idx : Nat) (q : String) : String :=
  match o.query idx q with
  | Except.ok resp => fullAnswer resp
  | Except.error e => "Error processing question: " ++ e

/-- `main.py`'s `run_submission` body (lines 94-199) after pydantic
validation: load the document (failure → HTTPException 400), build the
index (failure → HTTPException 500), then answer every question in order
and return a 200 response. -/
def runSubmission (o : Oracles) (documents : String) (questions : List String) :
    HttpResult × List Event :=
  match loadDocuments o documents with
  | (Except.error e, tr) =>
      (HttpResult.err 400 ("Failed to load document from URL: " ++ e), tr)
  | (Except.ok ds, tr) =>
      match o.buildIndex ds with
      | Except.error e =>
          (HttpResult.err 500 ("Failed to create document index: " ++ e),
           tr ++ [Event.buildIndexCall])
      | Except.ok idx =>
          (HttpResult.ok (questions.map (answerOne o idx)),
           tr ++ Event.buildIndexCall :: questions.map (fun _ => Event.queryCall))

/-- `main.py` lines 84-87: compare the `Authorization` header against
`f"Bearer {os.getenv('API_AUTH_TOKEN')}"`; a mismatch raises
`HTTPException(401, "Unauthorized")`, a match returns nothing. -/
def validateToken (envToken authorization : String) : Option HttpResult :=
  if authorization ≠ "Bearer " ++ envToken then
    some (HttpResult.err 401 "Unauthorized")
  else
    none

/-- Detail string standing in for the framework-generated body of a 422
validation response; the claims depend only on the status code. -/
def missingHeaderDetail : String := "Field required"

/-- The `/api/v1/hackrx/run` endpoint of `main.py`: the declaration
`authorization: str = Header(...)` marks the header required, so FastAPI
rejects a request without it with a 422 validation error before the
`validate_token` dependency runs; with the header present,
`validate_token` runs and a mismatch is a 401; otherwise the handler body
executes. -/
def handleRun (envToken : String) (auth : Option String) (o : Oracles)
    (documents : String) (questions : List String) : HttpResult × List Event :=
  match auth with
  | none => (HttpResult.err 422 missingHeaderDetail, [])
  | some a =>
      match validateToken envToken a with
      | some r => (r, [])
      | none => runSubmission o documents questions

end Main

namespace Improved

/-- A Python value as it appears in the parsed request of
`improved_main.py`: JSON strings, lists, numbers, booleans, `None`, and an
uploaded-file object (a multipart form value that is not a plain string).
Dictionaries and floats are not needed by any claim and are left out. -/
inductive PyVal where
  | pstr (s : String)
  | plist (xs : List PyVal)
  | pnum (n : Int)
  | pbool (b : Bool)
  | pnone
  | pfile (filename content : String)

/-- Python truthiness for the modelled values (`not questions`). -/
def pyTruthy : PyVal → Bool
  | PyVal.pstr s => s ≠ ""
  | PyVal.plist xs => !xs.isEmpty
  | PyVal.pnum n => n ≠ 0
  | PyVal.pbool b => b
  | PyVal.pnone => false
  | PyVal.pfile _ _ => true

/-- `data.get("documents") or data.get("document_url")`
(`improved_main.py` line 134) on string-or-absent fields: the first
operand is taken when it is truthy (present and non-empty), otherwise the
second.  Non-string document values are outside the model. -/
def pyOrStr (a b : Option String) : Option String :=
  match a with
  | some s => if s = "" then b else some s
  | none => b

/-- The parsed `application/json` body of `improved_main.py` lines
130-135: the `questions` field (any JSON value, absent allowed), and the
`documents` / `document_url` fields (string or absent; non-string values
are outside the model). -/
structure JsonBody where
  questionsField : Option PyVal
  documentsField : Option String
  documentUrlField : Option String

/-- An uploaded file object (`UploadFile`): its filename and content. -/
structure FileVal where
  filename : String
  content : String
deriving DecidableEq

/-- The parsed `multipart/form-data` body of `improved_main.py` lines
139-156: the value of the `questions` key when present, the values of the
keys starting with `question` (used only when the `questions` key is
absent, lines 150-153), `form.get("document_url")` (string or absent) and
`form.get("file")` (file or absent; a string-valued `file` field is
outside the model). -/
structure FormData where
  questionsField : Option PyVal
  questionFields : List PyVal
  documentUrlField : Option String
  fileField : Option FileVal

/-- The content-type dispatch of `improved_main.py` lines 127-159: a body
parsed as JSON when `"application/json" in content_type`, a parsed form
when `"multipart/form-data" in content_type`, and anything else. -/
inductive ImpRequest where
  | jsonReq (body : JsonBody)
  | formReq (fd : FormData)
  | otherContentType (ct : String)

/-- External collaborators of `improved_main.py`'s `run_submission`.
`jsonLoads s` models `json.loads(s)`: `none` models the call raising.
`httpGet`, `tmpName`, `loadData` and `buildIndex` are as in the `Main`
model; `query` models everything inside the per-question `try` body
(including the `question[:100]` log slice, which raises for non-string
questions and is caught by the same `except`). -/
structure Oracles where
  jsonLoads : String → Option PyVal
  httpGet : String → Except String String
  tmpName : String
  loadData : String → Except String (List String)
  buildIndex : List String → Except String Nat
  query : Nat → PyVal → Except String String

/-- `improved_main.py` lines 142-153: obtain the `questions` Python value
from the form.  A string-valued `questions` field is passed through
`json.loads`; if that raises, the bare `except` wraps the raw string as a
one-element list.  A non-string `questions` field is wrapped directly.
With no `questions` key, the `question*`-prefixed field values are
collected. -/
def parseFormQuestions (loads : String → Option PyVal) (fd : FormData) : PyVal :=
  match fd.questionsField with
  | some (PyVal.pstr s) =>
      match loads s with
      | some v => v
      | none => PyVal.plist [PyVal.pstr s]
  | some v => PyVal.plist [v]
  | none => PyVal.plist fd.questionFields

/-- `improved_main.py` line 162: `if not questions or not
isinstance(questions, list)` raises the 400; otherwise the list is used. -/
def checkQuestions (v : PyVal) : Except (Nat × String) (List PyVal) :=
  if pyTruthy v then
    match v with
    | PyVal.plist qs => Except.ok qs
    | _ => Except.error (400, "Questions must be provided as a non-empty list")
  else
    Except.error (400, "Questions must be provided as a non-empty list")

/-- The parsing phase of `improved_main.py` lines 126-163: content-type
dispatch, extraction of `questions`, `document_url` and `file`, and the
non-empty-list validation.  No network or filesystem event occurs here. -/
def parseRequest (o : Oracles) (req : ImpRequest) :
    Except (Nat × String) (List PyVal × Option String × Option FileVal) :=
  match req with
  | ImpRequest.otherContentType _ =>
      Except.error (400, "Content-Type must be application/json or multipart/form-data")
  | ImpRequest.jsonReq b =>
      match checkQuestions (b.questionsField.getD (PyVal.plist [])) with
      | Except.error r => Except.error r
      | Except.ok qs =>
          Except.ok (qs, pyOrStr b.documentsField b.documentUrlField, none)
  | ImpRequest.formReq fd =>
      match checkQuestions (parseFormQuestions o.jsonLoads fd) with
      | Except.error r => Except.error r
      | Except.ok qs => Except.ok (qs, fd.documentUrlField, fd.fileField)

/-- The loading phase of `improved_main.py` lines 166-215.  With an
uploaded file (lines 169-186): write it to a `delete=False` temporary
file, read it back, and `os.unlink` only after a successful `load_data`
(line 181) — on a `load_data` exception the unlink is skipped.  With no
file but a `document_url` that is truthy and starts with `http://` or
`https://` (lines 189-210): fetch, write the temporary file, read, unlink
on success only.  Otherwise (lines 211-215) raise the 400 with no network
or filesystem operation. -/
def loadPhase (o : Oracles) (durl : Option String) (file : Option FileVal) :
    Except (Nat × String) (List String) × List Event :=
  match file with
  | some _ =>
      match o.loadData o.tmpName with
      | Except.error e =>
          (Except.error (400, "Failed to read uploaded file: " ++ e),
           [Event.createTemp o.tmpName, Event.readFile o.tmpName])
      | Except.ok ds =>
          (Except.ok ds,
           [Event.createTemp o.tmpName, Event.readFile o.tmpName,
            Event.unlink o.tmpName])
  | none =>
      match durl with
      | some d =>
          if (d ≠ "") && (strStartsWith d "http://" || strStartsWith d "https://") then
            match o.httpGet d with
            | Except.error e =>
                (Except.error (400, "Failed to load document from URL: " ++ e),
                 [Event.fetchUrl d])
            | Except.ok _ =>
                match o.loadData o.tmpName with
                | Except.error e =>
                    (Except.error (400, "Failed to load document from URL: " ++ e),
                     [Event.fetchUrl d, Event.createTemp o.tmpName,
                      Event.readFile o.tmpName])
                | Except.ok ds =>
                    (Except.ok ds,
                     [Event.fetchUrl d, Event.createTemp o.tmpName,
                      Event.readFile o.tmpName, Event.unlink o.tmpName])
          else
            (Except.error (400,
               "No valid document provided. Provide either a file upload or a valid document URL."), [])
      | none =>
          (Except.error (400,
             "No valid document provided. Provide either a file upload or a valid document URL."), [])

/-- One iteration of the per-question loop, `improved_main.py` lines
230-240: the answer is `str(response)`, a caught exception degrades to
`"Error processing question: " + str(e)`. -/
def answerOne (o : Oracles) (idx : Nat) (q : PyVal) : String :=
  match o.query idx q with
  | Except.ok a => a
  | Except.error e => "Error processing question: " ++ e

/-- `improved_main.py`'s `run_submission` body (lines 126-249): parse and
validate, load the document, build the index (failure → HTTPException
500), then answer every question in order and return a 200 response. -/
def runSubmission (o : Oracles) (req : ImpRequest) : HttpResult × List Event :=
  match parseRequest o req with
  | Except.error (s, m) => (HttpResult.err s m, [])
  | Except.ok (qs, durl, file) =>
      match loadPhase o durl file with
      | (Except.error (s, m), tr) => (HttpResult.err s m, tr)
      | (Except.ok ds, tr) =>
          match o.buildIndex ds with
          | Except.error e =>
              (HttpResult.err 500 ("Failed to create document index: " ++ e),
               tr ++ [Event.buildIndexCall])
          | Except.ok idx =>
              (HttpResult.ok (qs.map (answerOne o idx)),
               tr ++ Event.buildIndexCall :: qs.map (fun _ => Event.queryCall))

/-- `improved_main.py` lines 111-115: build the expected
`f"Bearer {os.getenv('API_AUTH_TOKEN')}"`, execute
`print(expected_token, authorization)` — recorded as the printed output
line — and raise the 401 on mismatch. -/
def validateToken (envToken authorization : String) :
    Option HttpResult × List String :=
  let expected := "Bearer " ++ envToken
  let printed := [expected ++ " " ++ authorization]
  if authorization = expected then (none, printed)
  else (some (HttpResult.err 401 "Unauthorized"), printed)

/-- The `/api/v1/hackrx/run` endpoint of `improved_main.py`: the required
`Authorization` header is missing → framework 422 before `validate_token`
runs (so nothing is printed); otherwise `validate_token` runs (printing
its line) and gates the handler body.  The third component is the printed
output. -/
def handleRun (envToken : String) (auth : Option String) (o : Oracles)
    (req : ImpRequest) : HttpResult × List Event × List String :=
  match auth with
  | none => (HttpResult.err 422 Main.missingHeaderDetail, [], [])
  | some a =>
      match validateToken envToken a with
      | (some r, printed) => (r, [], printed)
      | (none, printed) =>
          let rt := runSubmission o req
          (rt.1, rt.2, printed)

end Improved

/-! Concrete fixtures used to instantiate the theorems below. -/

/-- Fixture: `main.py` oracles where every external call succeeds and no
query returns source nodes. -/
def oAllOk : Main.Oracles where
  httpGet := fun _ => Except.ok "PDFBYTES"
  tmpName := "/tmp/doc.pdf"
  loadData := fun _ => Except.ok ["doc1"]
  buildIndex := fun _ => Except.ok 0
  query := fun _ q => Except.ok { answerText := "ans " ++ q, sourceNodes := [] }

/-- Fixture: as `oAllOk` but passage extraction raises. -/
def oLoadFail : Main.Oracles :=
  { oAllOk with loadData := fun _ => Except.error "extract fail" }

/-- Fixture: as `oAllOk` but the URL fetch raises (e.g. a 404). -/
def oFetchFail : Main.Oracles :=
  { oAllOk with httpGet := fun _ => Except.error "404 Client Error" }

/-- Fixture: as `oAllOk` but the Answer Generator raises on question `q2`. -/
def oQueryFail : Main.Oracles :=
  { oAllOk with
    query := fun _ q =>
      if q = "q2" then Except.error "boom"
      else Except.ok { answerText := "ans " ++ q, sourceNodes := [] } }

/-- Fixture: `improved_main.py` oracles where `json.loads` always raises
and every other external call succeeds. -/
def ioAllOk : Improved.Oracles where
  jsonLoads := fun _ => none
  httpGet := fun _ => Except.ok "PDFBYTES"
  tmpName := "/tmp/doc2.pdf"
  loadData := fun _ => Except.ok ["doc1"]
  buildIndex := fun _ => Except.ok 0
  query := fun _ _ => Except.ok "an answer"

/-- Fixture: as `ioAllOk` but passage extraction raises. -/
def ioLoadFail : Improved.Oracles :=
  { ioAllOk with loadData := fun _ => Except.error "extract fail" }

/-- Fixture: as `ioAllOk` but the Answer Generator raises on the second
question. -/
def ioQueryFail : Improved.Oracles :=
  { ioAllOk with
    query := fun _ q =>
      match q with
      | Improved.PyVal.pstr s =>
          if s = "q2" then Except.error "boom" else Except.ok ("ans " ++ s)
      | _ => Except.error "slice fail" }

/-- Fixture: a JSON-body request with three questions and a document URL. -/
def jsonReq3 : Improved.ImpRequest :=
  Improved.ImpRequest.jsonReq
    { questionsField := some (Improved.PyVal.plist
        [Improved.PyVal.pstr "q1", Improved.PyVal.pstr "q2", Improved.PyVal.pstr "q3"])
      documentsField := some "http://x"
      documentUrlField := none }

/-- C1: for every request that reaches the answering stage (the document
loaded and the index built, in either variant), the returned 200 response
carries exactly one answer per input question — the answers list is the
`map` of the per-question step over the input list, so it has the same
length and preserves positional order — and a question whose Answer
Generator call fails gets the error string in its slot instead of
aborting the batch. -/
theorem claimC1_answers_one_per_question
    (o : Main.Oracles) (documents : String) (qs : List String)
    (ds : List String) (trL : List Event) (idx : Nat)
    (hL : Main.loadDocuments o documents = (Except.ok ds, trL))
    (hI : o.buildIndex ds = Except.ok idx)
    (io : Improved.Oracles) (req : Improved.ImpRequest)
    (pqs : List Improved.PyVal) (durl : Option String) (file : Option Improved.FileVal)
    (hP : Improved.parseRequest io req = Except.ok (pqs, durl, file))
    (ds2 : List String) (trL2 : List Event) (idx2 : Nat)
    (hL2 : Improved.loadPhase io durl file = (Except.ok ds2, trL2))
    (hI2 : io.buildIndex ds2 = Except.ok idx2) :
    (Main.runSubmission o documents qs
        = (HttpResult.ok (qs.map (Main.answerOne o idx)),
           trL ++ Event.buildIndexCall :: qs.map (fun _ => Event.queryCall))
      ∧ (qs.map (Main.answerOne o idx)).length = qs.length
      ∧ ∀ q e, o.query idx q = Except.error e →
          Main.answerOne o idx q = "Error processing question: " ++ e)
    ∧ (Improved.runSubmission io req
        = (HttpResult.ok (pqs.map (Improved.answerOne io idx2)),
           trL2 ++ Event.buildIndexCall :: pqs.map (fun _ => Event.queryCall))
      ∧ (pqs.map (Improved.answerOne io idx2)).length = pqs.length
      ∧ ∀ q e, io.query idx2 q = Except.error e →
          Improved.answerOne io idx2 q = "Error processing question: " ++ e) := by
  constructor
  · refine ⟨?_, List.length_map _ _, ?_⟩
    · unfold Main.runSubmission
      rw [hL]
      dsimp only
      rw [hI]
    · intro q e hq
      unfold Main.answerOne
      rw [hq]
  · refine ⟨?_, List.length_map _ _, ?_⟩
    · unfold Improved.runSubmission
      rw [hP]
      dsimp only
      rw [hL2]
      dsimp only
      rw [hI2]
    · intro q e hq
      unfold Improved.answerOne
      rw [hq]

/-- Witness for C1 at concrete inputs: both variants, two (resp. three)
questions, all external calls succeeding. -/
theorem claimC1_answers_one_per_question_witness :
    Main.runSubmission oAllOk "http://x" ["q1", "q2"]
        = (HttpResult.ok (["q1", "q2"].map (Main.answerOne oAllOk 0)),
           [Event.fetchUrl "http://x", Event.createTemp "/tmp/doc.pdf",
            Event.readFile "/tmp/doc.pdf", Event.unlink "/tmp/doc.pdf"]
             ++ Event.buildIndexCall :: ["q1", "q2"].map (fun _ => Event.queryCall))
    ∧ Improved.runSubmission ioAllOk jsonReq3
        = (HttpResult.ok
             ([Improved.PyVal.pstr "q1", Improved.PyVal.pstr "q2",
               Improved.PyVal.pstr "q3"].map (Improved.answerOne ioAllOk 0)),
           [Event.fetchUrl "http://x", Event.createTemp "/tmp/doc2.pdf",
            Event.readFile "/tmp/doc2.pdf", Event.unlink "/tmp/doc2.pdf"]
             ++ Event.buildIndexCall
               :: [Improved.PyVal.pstr "q1", Improved.PyVal.pstr "q2",
                   Improved.PyVal.pstr "q3"].map (fun _ => Event.queryCall)) :=
  ⟨(claimC1_answers_one_per_question oAllOk "http://x" ["q1", "q2"] ["doc1"]
      [Event.fetchUrl "http://x", Event.createTemp "/tmp/doc.pdf",
       Event.readFile "/tmp/doc.pdf", Event.unlink "/tmp/doc.pdf"] 0 rfl rfl
      ioAllOk jsonReq3
      [Improved.PyVal.pstr "q1", Improved.PyVal.pstr "q2", Improved.PyVal.pstr "q3"]
      (some "http://x") none rfl ["doc1"]
      [Event.fetchUrl "http://x", Event.createTemp "/tmp/doc2.pdf",
       Event.readFile "/tmp/doc2.pdf", Event.unlink "/tmp/doc2.pdf"] 0 rfl rfl).1.1,
   (claimC1_answers_one_per_question oAllOk "http://x" ["q1", "q2"] ["doc1"]
      [Event.fetchUrl "http://x", Event.createTemp "/tmp/doc.pdf",
       Event.readFile "/tmp/doc.pdf", Event.unlink "/tmp/doc.pdf"] 0 rfl rfl
      ioAllOk jsonReq3
      [Improved.PyVal.pstr "q1", Improved.PyVal.pstr "q2", Improved.PyVal.pstr "q3"]
      (some "http://x") none rfl ["doc1"]
      [Event.fetchUrl "http://x", Event.createTemp "/tmp/doc2.pdf",
       Event.readFile "/tmp/doc2.pdf", Event.unlink "/tmp/doc2.pdf"] 0 rfl rfl).2.1⟩

/-- C2: in both variants, when the Answer Generator fails for the `i`-th
question after the index was built, the request still returns a 200
response whose answers list is the per-question map; slot `i` holds the
error string, and every slot `j` — the remaining questions included — is
the result of processing question `j`. -/
theorem claimC2_per_question_failure_isolated
    (o : Main.Oracles) (documents : String) (qs : List String)
    (ds : List String) (trL : List Event) (idx : Nat)
    (hL : Main.loadDocuments o documents = (Except.ok ds, trL))
    (hI : o.buildIndex ds = Except.ok idx)
    (i : Nat) (h : i < qs.length) (h2 : i < (qs.map (Main.answerOne o idx)).length)
    (e : String) (hQ : o.query idx (qs.get ⟨i, h⟩) = Except.error e)
    (io : Improved.Oracles) (req : Improved.ImpRequest)
    (pqs : List Improved.PyVal) (durl : Option String) (file : Option Improved.FileVal)
    (hP : Improved.parseRequest io req = Except.ok (pqs, durl, file))
    (ds2 : List String) (trL2 : List Event) (idx2 : Nat)
    (hL2 : Improved.loadPhase io durl file = (Except.ok ds2, trL2))
    (hI2 : io.buildIndex ds2 = Except.ok idx2)
    (k : Nat) (hk : k < pqs.length) (hk2 : k < (pqs.map (Improved.answerOne io idx2)).length)
    (e2 : String) (hQ2 : io.query idx2 (pqs.get ⟨k, hk⟩) = Except.error e2) :
    ((∃ tr, Main.runSubmission o documents qs
        = (HttpResult.ok (qs.map (Main.answerOne o idx)), tr))
      ∧ (qs.map (Main.answerOne o idx)).get ⟨i, h2⟩ = "Error processing question: " ++ e
      ∧ ∀ (j : Nat) (hj : j < qs.length) (hj2 : j < (qs.map (Main.answerOne o idx)).length),
          (qs.map (Main.answerOne o idx)).get ⟨j, hj2⟩
            = Main.answerOne o idx (qs.get ⟨j, hj⟩))
    ∧ ((∃ tr, Improved.runSubmission io req
        = (HttpResult.ok (pqs.map (Improved.answerOne io idx2)), tr))
      ∧ (pqs.map (Improved.answerOne io idx2)).get ⟨k, hk2⟩
          = "Error processing question: " ++ e2
      ∧ ∀ (j : Nat) (hj : j < pqs.length)
          (hj2 : j < (pqs.map (Improved.answerOne io idx2)).length),
          (pqs.map (Improved.answerOne io idx2)).get ⟨j, hj2⟩
            = Improved.answerOne io idx2 (pqs.get ⟨j, hj⟩)) := by
  constructor
  · refine ⟨⟨trL ++ Event.buildIndexCall :: qs.map (fun _ => Event.queryCall), ?_⟩, ?_, ?_⟩
    · unfold Main.runSubmission
      rw [hL]
      dsimp only
      rw [hI]
    · rw [List.get_eq_getElem, List.getElem_map]
      unfold Main.answerOne
      rw [List.get_eq_getElem] at hQ
      rw [hQ]
    · intro j hj hj2
      rw [List.get_eq_getElem, List.get_eq_getElem, List.getElem_map]
  · refine ⟨⟨trL2 ++ Event.buildIndexCall :: pqs.map (fun _ => Event.queryCall), ?_⟩, ?_, ?_⟩
    · unfold Improved.runSubmission
      rw [hP]
      dsimp only
      rw [hL2]
      dsimp only
      rw [hI2]
    · rw [List.get_eq_getElem, List.getElem_map]
      unfold Improved.answerOne
      rw [List.get_eq_getElem] at hQ2
      rw [hQ2]
    · intro j hj hj2
      rw [List.get_eq_getElem, List.get_eq_getElem, List.getElem_map]

/-- Witness for C2 at concrete inputs: three questions, the Answer
Generator failing exactly on the second one, in both variants. -/
theorem claimC2_per_question_failure_isolated_witness :
    (∃ tr, Main.runSubmission oQueryFail "http://x" ["q1", "q2", "q3"]
        = (HttpResult.ok (["q1", "q2", "q3"].map (Main.answerOne oQueryFail 0)), tr))
    ∧ (["q1", "q2", "q3"].map (Main.answerOne oQueryFail 0)).get ⟨1, by decide⟩
        = "Error processing question: " ++ "boom"
    ∧ ([Improved.PyVal.pstr "q1", Improved.PyVal.pstr "q2",
        Improved.PyVal.pstr "q3"].map (Improved.answerOne ioQueryFail 0)).get ⟨1, by decide⟩
        = "Error processing question: " ++ "boom" := by
  have hmain := claimC2_per_question_failure_isolated oQueryFail "http://x"
    ["q1", "q2", "q3"] ["doc1"]
    [Event.fetchUrl "http://x", Event.createTemp "/tmp/doc.pdf",
     Event.readFile "/tmp/doc.pdf", Event.unlink "/tmp/doc.pdf"] 0 rfl rfl
    1 (by decide) (by decide) "boom" rfl
    ioQueryFail jsonReq3
    [Improved.PyVal.pstr "q1", Improved.PyVal.pstr "q2", Improved.PyVal.pstr "q3"]
    (some "http://x") none rfl ["doc1"]
    [Event.fetchUrl "http://x", Event.createTemp "/tmp/doc2.pdf",
     Event.readFile "/tmp/doc2.pdf", Event.unlink "/tmp/doc2.pdf"] 0 rfl rfl
    1 (by decide) (by decide) "boom" rfl
  exact ⟨hmain.1.1, hmain.1.2.1, hmain.2.2.1⟩

/-- The document-loading phase of `main.py` never invokes the Index
Builder. -/
lemma mainLoad_no_indexCall (o : Main.Oracles) (documents : String) :
    Event.buildIndexCall ∉ (Main.loadDocuments o documents).2 := by
  unfold Main.loadDocuments
  split
  · split
    · simp
    · split <;> simp
  · split <;> simp

/-- The document-loading phase of `main.py` never invokes the Answer
Generator. -/
lemma mainLoad_no_queryCall (o : Main.Oracles) (documents : String) :
    Event.queryCall ∉ (Main.loadDocuments o documents).2 := by
  unfold Main.loadDocuments
  split
  · split
    · simp
    · split <;> simp
  · split <;> simp

/-- The document-loading phase of `improved_main.py` never invokes the
Index Builder. -/
lemma impLoad_no_indexCall (o : Improved.Oracles) (durl : Option String)
    (file : Option Improved.FileVal) :
    Event.buildIndexCall ∉ (Improved.loadPhase o durl file).2 := by
  unfold Improved.loadPhase
  repeat' split
  all_goals simp

/-- The document-loading phase of `improved_main.py` never invokes the
Answer Generator. -/
lemma impLoad_no_queryCall (o : Improved.Oracles) (durl : Option String)
    (file : Option Improved.FileVal) :
    Event.queryCall ∉ (Improved.loadPhase o durl file).2 := by
  unfold Improved.loadPhase
  repeat' split
  all_goals simp

/-- Every failure of the loading phase of `improved_main.py` carries
status 400. -/
lemma impLoadPhase_error_status (o : Improved.Oracles) (durl : Option String)
    (file : Option Improved.FileVal) (s : Nat) (m : String) (tr : List Event)
    (heq : Improved.loadPhase o durl file = (Except.error (s, m), tr)) : s = 400 := by
  unfold Improved.loadPhase at heq
  repeat' split at heq
  all_goals
    injection heq with h1 h2
    first
      | (injection h1 with h3; injection h3 with h4 h5; omega)
      | injection h1

/-- C8: in both variants, when the Document Loader fails (the fetch, the
temporary-file read-back, or — in the improved variant — the uploaded-file
read), the response is the 400 `HTTPException`, and the side-effect trace
of the whole request contains no Index Builder call and no Answer
Generator call. -/
theorem claimC8_loader_failure_terminal
    (o : Main.Oracles) (documents : String) (qs : List String)
    (e : String) (trE : List Event)
    (hL : Main.loadDocuments o documents = (Except.error e, trE))
    (io : Improved.Oracles) (req : Improved.ImpRequest)
    (pqs : List Improved.PyVal) (durl : Option String) (file : Option Improved.FileVal)
    (hP : Improved.parseRequest io req = Except.ok (pqs, durl, file))
    (s : Nat) (m : String) (trE2 : List Event)
    (hL2 : Improved.loadPhase io durl file = (Except.error (s, m), trE2)) :
    (Main.runSubmission o documents qs
        = (HttpResult.err 400 ("Failed to load document from URL: " ++ e), trE)
      ∧ Event.buildIndexCall ∉ trE ∧ Event.queryCall ∉ trE)
    ∧ (Improved.runSubmission io req = (HttpResult.err 400 m, trE2)
      ∧ s = 400
      ∧ Event.buildIndexCall ∉ trE2 ∧ Event.queryCall ∉ trE2) := by
  have hs : s = 400 := impLoadPhase_error_status io durl file s m trE2 hL2
  constructor
  · refine ⟨?_, ?_, ?_⟩
    · unfold Main.runSubmission
      rw [hL]
    · have := mainLoad_no_indexCall o documents
      rw [hL] at this
      exact this
    · have := mainLoad_no_queryCall o documents
      rw [hL] at this
      exact this
  · refine ⟨?_, hs, ?_, ?_⟩
    · unfold Improved.runSubmission
      rw [hP]
      dsimp only
      rw [hL2, hs]
    · have := impLoad_no_indexCall io durl file
      rw [hL2] at this
      exact this
    · have := impLoad_no_queryCall io durl file
      rw [hL2] at this
      exact this

/-- Witness for C8 at concrete inputs: `main.py` with a URL whose fetch
raises a 404, `improved_main.py` with a URL whose temporary-file
extraction raises. -/
theorem claimC8_loader_failure_terminal_witness :
    (Main.runSubmission oFetchFail "http://x" ["q1"]
        = (HttpResult.err 400 ("Failed to load document from URL: " ++ "404 Client Error"),
           [Event.fetchUrl "http://x"])
      ∧ Event.buildIndexCall ∉ [Event.fetchUrl "http://x"]
      ∧ Event.queryCall ∉ [Event.fetchUrl "http://x"])
    ∧ (Improved.runSubmission ioLoadFail jsonReq3
        = (HttpResult.err 400 "Failed to load document from URL: extract fail",
           [Event.fetchUrl "http://x", Event.createTemp "/tmp/doc2.pdf",
            Event.readFile "/tmp/doc2.pdf"])
      ∧ (400 : Nat) = 400
      ∧ Event.buildIndexCall ∉
          [Event.fetchUrl "http://x", Event.createTemp "/tmp/doc2.pdf",
           Event.readFile "/tmp/doc2.pdf"]
      ∧ Event.queryCall ∉
          [Event.fetchUrl "http://x", Event.createTemp "/tmp/doc2.pdf",
           Event.readFile "/tmp/doc2.pdf"]) :=
  claimC8_loader_failure_terminal oFetchFail "http://x" ["q1"] "404 Client Error"
    [Event.fetchUrl "http://x"] rfl ioLoadFail jsonReq3
    [Improved.PyVal.pstr "q1", Improved.PyVal.pstr "q2", Improved.PyVal.pstr "q3"]
    (some "http://x") none rfl 400 "Failed to load document from URL: extract fail"
    [Event.fetchUrl "http://x", Event.createTemp "/tmp/doc2.pdf",
     Event.readFile "/tmp/doc2.pdf"] rfl

/-- Fixture: an uploaded file. -/
def fileFix : Improved.FileVal where
  filename := "a.pdf"
  content := "PDFBYTES"

/-- C3 is false: when passage extraction raises (here on a fetched URL
document in `main.py`), the `except` arm returns the 400 but the
`os.unlink` on line 122 was never reached, so after the Document Loader
invocation the temporary file still exists on the filesystem. -/
theorem claimC3_counterexample :
    Main.loadDocuments oLoadFail "http://x"
        = (Except.error "extract fail",
           [Event.fetchUrl "http://x", Event.createTemp "/tmp/doc.pdf",
            Event.readFile "/tmp/doc.pdf"])
      ∧ remainingTemps (Main.loadDocuments oLoadFail "http://x").2 = ["/tmp/doc.pdf"] :=
  ⟨rfl, rfl⟩

/-- C3 amended: in both variants, after a Document Loader invocation whose
passage extraction succeeds, the temporary file has been removed; when
extraction raises, the unlink is skipped and the temporary file remains on
the filesystem. -/
theorem claimC3_amended :
    (∀ (o : Main.Oracles) (url c : String) (ds : List String),
        (strStartsWith url "http://" || strStartsWith url "https://") = true →
        o.httpGet url = Except.ok c →
        o.loadData o.tmpName = Except.ok ds →
        remainingTemps (Main.loadDocuments o url).2 = [])
    ∧ (∀ (o : Main.Oracles) (url c e : String),
        (strStartsWith url "http://" || strStartsWith url "https://") = true →
        o.httpGet url = Except.ok c →
        o.loadData o.tmpName = Except.error e →
        remainingTemps (Main.loadDocuments o url).2 = [o.tmpName])
    ∧ (∀ (o : Improved.Oracles) (durl : Option String) (f : Improved.FileVal)
        (ds : List String),
        o.loadData o.tmpName = Except.ok ds →
        remainingTemps (Improved.loadPhase o durl (some f)).2 = [])
    ∧ (∀ (o : Improved.Oracles) (durl : Option String) (f : Improved.FileVal)
        (e : String),
        o.loadData o.tmpName = Except.error e →
        remainingTemps (Improved.loadPhase o durl (some f)).2 = [o.tmpName]) := by
  refine ⟨?_, ?_, ?_, ?_⟩
  · intro o url c ds hs hg hl
    unfold Main.loadDocuments
    rw [hs, if_pos rfl, hg, hl]
    simp [remainingTemps, createdTemps, unlinkedTemps]
  · intro o url c e hs hg hl
    unfold Main.loadDocuments
    rw [hs, if_pos rfl, hg, hl]
    simp [remainingTemps, createdTemps, unlinkedTemps]
  · intro o durl f ds hl
    unfold Improved.loadPhase
    rw [hl]
    simp [remainingTemps, createdTemps, unlinkedTemps]
  · intro o durl f e hl
    unfold Improved.loadPhase
    rw [hl]
    simp [remainingTemps, createdTemps, unlinkedTemps]

/-- Witness for the amended C3 at concrete inputs: both variants, both
the success path (no leftover temporary file) and the extraction-failure
path (the temporary file remains). -/
theorem claimC3_amended_witness :
    remainingTemps (Main.loadDocuments oAllOk "http://x").2 = []
    ∧ remainingTemps (Main.loadDocuments oLoadFail "http://x").2 = ["/tmp/doc.pdf"]
    ∧ remainingTemps (Improved.loadPhase ioAllOk none (some fileFix)).2 = []
    ∧ remainingTemps (Improved.loadPhase ioLoadFail none (some fileFix)).2 = ["/tmp/doc2.pdf"] :=
  ⟨claimC3_amended.1 oAllOk "http://x" "PDFBYTES" ["doc1"] rfl rfl rfl,
   claimC3_amended.2.1 oLoadFail "http://x" "PDFBYTES" "extract fail" rfl rfl rfl,
   claimC3_amended.2.2.1 ioAllOk none fileFix ["doc1"] rfl,
   claimC3_amended.2.2.2 ioLoadFail none fileFix "extract fail" rfl⟩

/-- C4 is false for the `main.py` variant: an authenticated request whose
question list is empty (`questions: []` passes the pydantic `List[str]`
validation) is not rejected — `main.py` has no emptiness check, so the
document is fetched over the network and the request returns 200 with an
empty answers list, instead of a 400 with no fetch. -/
theorem claimC4_counterexample :
    Main.runSubmission oAllOk "http://x" []
        = (HttpResult.ok [],
           [Event.fetchUrl "http://x", Event.createTemp "/tmp/doc.pdf",
            Event.readFile "/tmp/doc.pdf", Event.unlink "/tmp/doc.pdf",
            Event.buildIndexCall])
      ∧ Event.fetchUrl "http://x" ∈ (Main.runSubmission oAllOk "http://x" []).2 :=
  ⟨rfl, by decide⟩

/-- C4 amended: in the improved variant an empty or missing question list
yields the 400 before any side effect (empty trace, so no document
fetch); in the `main.py` variant an empty question list is accepted, the
document fetch proceeds, and a request whose external calls succeed
returns 200 with an empty answers list. -/
theorem claimC4_amended :
    (∀ (io : Improved.Oracles) (b : Improved.JsonBody),
        b.questionsField = none ∨ b.questionsField = some (Improved.PyVal.plist []) →
        Improved.runSubmission io (Improved.ImpRequest.jsonReq b)
          = (HttpResult.err 400 "Questions must be provided as a non-empty list", []))
    ∧ (∀ (io : Improved.Oracles) (fd : Improved.FormData),
        fd.questionsField = none → fd.questionFields = [] →
        Improved.runSubmission io (Improved.ImpRequest.formReq fd)
          = (HttpResult.err 400 "Questions must be provided as a non-empty list", []))
    ∧ (∀ (o : Main.Oracles) (documents c : String) (ds : List String) (idx : Nat),
        (strStartsWith documents "http://" || strStartsWith documents "https://") = true →
        o.httpGet documents = Except.ok c →
        o.loadData o.tmpName = Except.ok ds →
        o.buildIndex ds = Except.ok idx →
        Main.runSubmission o documents []
          = (HttpResult.ok [],
             [Event.fetchUrl documents, Event.createTemp o.tmpName,
              Event.readFile o.tmpName, Event.unlink o.tmpName,
              Event.buildIndexCall])) := by
  refine ⟨?_, ?_, ?_⟩
  · intro io b hb
    unfold Improved.runSubmission Improved.parseRequest
    rcases hb with hb | hb <;>
      simp [hb, Improved.checkQuestions, Improved.pyTruthy]
  · intro io fd h1 h2
    unfold Improved.runSubmission Improved.parseRequest Improved.parseFormQuestions
    simp [h1, h2, Improved.checkQuestions, Improved.pyTruthy]
  · intro o documents c ds idx hs hg hl hi
    unfold Main.runSubmission Main.loadDocuments
    rw [hs, if_pos rfl, hg, hl]
    dsimp only
    rw [hi]
    simp

/-- Witness for the amended C4 at concrete inputs: a JSON body with the
`questions` key absent, one with `questions: []`, a form with no question
fields, and `main.py` processing `questions: []` end to end. -/
theorem claimC4_amended_witness :
    Improved.runSubmission ioAllOk
        (Improved.ImpRequest.jsonReq
          { questionsField := none, documentsField := some "http://x",
            documentUrlField := none })
        = (HttpResult.err 400 "Questions must be provided as a non-empty list", [])
    ∧ Improved.runSubmission ioAllOk
        (Improved.ImpRequest.jsonReq
          { questionsField := some (Improved.PyVal.plist []),
            documentsField := some "http://x", documentUrlField := none })
        = (HttpResult.err 400 "Questions must be provided as a non-empty list", [])
    ∧ Improved.runSubmission ioAllOk
        (Improved.ImpRequest.formReq
          { questionsField := none, questionFields := [],
            documentUrlField := some "http://x", fileField := none })
        = (HttpResult.err 400 "Questions must be provided as a non-empty list", [])
    ∧ Main.runSubmission oAllOk "http://x" []
        = (HttpResult.ok [],
           [Event.fetchUrl "http://x", Event.createTemp "/tmp/doc.pdf",
            Event.readFile "/tmp/doc.pdf", Event.unlink "/tmp/doc.pdf",
            Event.buildIndexCall]) :=
  ⟨claimC4_amended.1 ioAllOk
     { questionsField := none, documentsField := some "http://x",
       documentUrlField := none } (Or.inl rfl),
   claimC4_amended.1 ioAllOk
     { questionsField := some (Improved.PyVal.plist []),
       documentsField := some "http://x", documentUrlField := none } (Or.inr rfl),
   claimC4_amended.2.1 ioAllOk
     { questionsField := none, questionFields := [],
       documentUrlField := some "http://x", fileField := none } rfl rfl,
   claimC4_amended.2.2 oAllOk "http://x" "PDFBYTES" ["doc1"] 0 rfl rfl rfl rfl⟩

/-- C5 is false on its missing-header part: in both variants the
`authorization: str = Header(...)` parameter is required, so a request
with no `Authorization` header is rejected by the framework's request
validation with status 422 — not 401 as the claim states. -/
theorem claimC5_counterexample :
    Main.handleRun "tok" none oAllOk "http://x" ["q1"]
        = (HttpResult.err 422 Main.missingHeaderDetail, [])
      ∧ Improved.handleRun "tok" none ioAllOk jsonReq3
        = (HttpResult.err 422 Main.missingHeaderDetail, [], [])
      ∧ (422 : Nat) ≠ 401 :=
  ⟨rfl, rfl, by decide⟩

/-- C5 amended: in both variants an `Authorization` header differing from
the expected bearer value yields the 401 with nothing else done; a
missing header yields the framework's 422 validation rejection rather
than a 401; and with the correct token the handler body runs — a correct
and an incorrect present token differ only in the 401 outcome. -/
theorem claimC5_amended
    (t a : String) (o : Main.Oracles) (documents : String) (qs : List String)
    (io : Improved.Oracles) (req : Improved.ImpRequest) :
    (a ≠ "Bearer " ++ t →
        Main.handleRun t (some a) o documents qs
          = (HttpResult.err 401 "Unauthorized", [])
      ∧ Improved.handleRun t (some a) io req
          = (HttpResult.err 401 "Unauthorized", [], ["Bearer " ++ t ++ " " ++ a]))
    ∧ (Main.handleRun t none o documents qs
          = (HttpResult.err 422 Main.missingHeaderDetail, [])
      ∧ Improved.handleRun t none io req
          = (HttpResult.err 422 Main.missingHeaderDetail, [], []))
    ∧ (Main.handleRun t (some ("Bearer " ++ t)) o documents qs
          = Main.runSubmission o documents qs
      ∧ Improved.handleRun t (some ("Bearer " ++ t)) io req
          = ((Improved.runSubmission io req).1, (Improved.runSubmission io req).2,
             ["Bearer " ++ t ++ " " ++ ("Bearer " ++ t)])) := by
  refine ⟨?_, ⟨rfl, rfl⟩, ?_, ?_⟩
  · intro hne
    constructor
    · simp [Main.handleRun, Main.validateToken, hne]
    · simp [Improved.handleRun, Improved.validateToken, hne]
  · simp [Main.handleRun, Main.validateToken]
  · simp [Improved.handleRun, Improved.validateToken]

/-- Witness for the amended C5 at concrete inputs: wrong token, missing
header and correct token, in both variants. -/
theorem claimC5_amended_witness :
    (Main.handleRun "tok" (some "bad") oAllOk "http://x" ["q1"]
        = (HttpResult.err 401 "Unauthorized", [])
      ∧ Improved.handleRun "tok" (some "bad") ioAllOk jsonReq3
        = (HttpResult.err 401 "Unauthorized", [], ["Bearer " ++ "tok" ++ " " ++ "bad"]))
    ∧ Main.handleRun "tok" none oAllOk "http://x" ["q1"]
        = (HttpResult.err 422 Main.missingHeaderDetail, [])
    ∧ Main.handleRun "tok" (some ("Bearer " ++ "tok")) oAllOk "http://x" ["q1"]
        = Main.runSubmission oAllOk "http://x" ["q1"] :=
  ⟨(claimC5_amended "tok" "bad" oAllOk "http://x" ["q1"] ioAllOk jsonReq3).1
     (by decide),
   (claimC5_amended "tok" "bad" oAllOk "http://x" ["q1"] ioAllOk jsonReq3).2.1.1,
   (claimC5_amended "tok" "bad" oAllOk "http://x" ["q1"] ioAllOk jsonReq3).2.2.1⟩

/-- C6 is false for the `main.py` variant: with no upload mechanism and a
document string not beginning with `http://` or `https://`, the request
does not fail with an InvalidInput 400 before touching the filesystem —
lines 123-126 treat the string as a local file path, read it from disk,
and when that read succeeds the request completes with 200. -/
theorem claimC6_counterexample :
    Main.runSubmission oAllOk "Test_Doc_2.pdf" ["q1"]
        = (HttpResult.ok
             ["ans q1\n\n--- Sources and Rationale ---\nNo specific sources retrieved for this answer.\n"],
           [Event.readFile "Test_Doc_2.pdf", Event.buildIndexCall, Event.queryCall])
      ∧ Event.readFile "Test_Doc_2.pdf"
          ∈ (Main.runSubmission oAllOk "Test_Doc_2.pdf" ["q1"]).2 :=
  ⟨rfl, by decide⟩

/-- C6 amended: in the improved variant, a request with neither a usable
upload nor a document string accepted by the scheme check fails with the
400 and an empty side-effect trace (no network or filesystem operation);
in the `main.py` variant, a document string without an accepted scheme is
instead interpreted as a local filesystem path and read from disk. -/
theorem claimC6_amended :
    (∀ (io : Improved.Oracles) (req : Improved.ImpRequest)
        (pqs : List Improved.PyVal),
        Improved.parseRequest io req = Except.ok (pqs, none, none) →
        Improved.runSubmission io req
          = (HttpResult.err 400
               "No valid document provided. Provide either a file upload or a valid document URL.",
             []))
    ∧ (∀ (io : Improved.Oracles) (req : Improved.ImpRequest)
        (pqs : List Improved.PyVal) (d : String),
        Improved.parseRequest io req = Except.ok (pqs, some d, none) →
        ((d ≠ "") && (strStartsWith d "http://" || strStartsWith d "https://")) = false →
        Improved.runSubmission io req
          = (HttpResult.err 400
               "No valid document provided. Provide either a file upload or a valid document URL.",
             []))
    ∧ (∀ (o : Main.Oracles) (documents : String),
        (strStartsWith documents "http://" || strStartsWith documents "https://") = false →
        (Main.loadDocuments o documents).2 = [Event.readFile documents]) := by
  refine ⟨?_, ?_, ?_⟩
  · intro io req pqs hP
    unfold Improved.runSubmission
    rw [hP]
    dsimp only
    unfold Improved.loadPhase
    rfl
  · intro io req pqs d hP hd
    unfold Improved.runSubmission
    rw [hP]
    dsimp only
    unfold Improved.loadPhase
    dsimp only
    rw [if_neg (by rw [hd]; simp)]
  · intro o documents hs
    unfold Main.loadDocuments
    rw [hs, if_neg (by simp)]
    cases o.loadData documents <;> rfl

/-- Witness for the amended C6 at concrete inputs: an improved-variant
form request with no document at all, one whose `document_url` lacks an
accepted scheme, and `main.py` reading a local path. -/
theorem claimC6_amended_witness :
    Improved.runSubmission ioAllOk
        (Improved.ImpRequest.formReq
          { questionsField := some (Improved.PyVal.pstr "q1"), questionFields := [],
            documentUrlField := none, fileField := none })
        = (HttpResult.err 400
             "No valid document provided. Provide either a file upload or a valid document URL.",
           [])
    ∧ Improved.runSubmission ioAllOk
        (Improved.ImpRequest.formReq
          { questionsField := some (Improved.PyVal.pstr "q1"), questionFields := [],
            documentUrlField := some "local.pdf", fileField := none })
        = (HttpResult.err 400
             "No valid document provided. Provide either a file upload or a valid document URL.",
           [])
    ∧ (Main.loadDocuments oAllOk "Test_Doc_2.pdf").2 = [Event.readFile "Test_Doc_2.pdf"] :=
  ⟨claimC6_amended.1 ioAllOk
     (Improved.ImpRequest.formReq
       { questionsField := some (Improved.PyVal.pstr "q1"), questionFields := [],
         documentUrlField := none, fileField := none })
     [Improved.PyVal.pstr "q1"] rfl,
   claimC6_amended.2.1 ioAllOk
     (Improved.ImpRequest.formReq
       { questionsField := some (Improved.PyVal.pstr "q1"), questionFields := [],
         documentUrlField := some "local.pdf", fileField := none })
     [Improved.PyVal.pstr "q1"] "local.pdf" rfl (by decide),
   claimC6_amended.2.2 oAllOk "Test_Doc_2.pdf" (by decide)⟩

/-- C7 fails on the code: `validate_token` in `improved_main.py` (line
113) executes `print(expected_token, authorization)` on every request to
the run endpoint, so the expected bearer value — which embeds the
environment-configured API auth secret, here `tok123` — is written to the
program's standard output, contradicting "never written to logs or
program output".  Evaluated at the failing input: secret `tok123`, header
`x`. -/
theorem claimC7_secret_printed :
    Improved.validateToken "tok123" "x"
        = (some (HttpResult.err 401 "Unauthorized"), ["Bearer tok123 x"])
      ∧ "Bearer tok123 x" = "Bearer " ++ "tok123" ++ " x" :=
  ⟨rfl, rfl⟩

/-- C9: the rendered source excerpt of `main.py` line 175 truncates the
passage content (`source_text`) to its first 500 characters — the excerpt
restricted to 500 characters is exactly `take 500` of the content and the
excerpt never exceeds 503 characters — and the literal `"..."` suffix is
appended exactly when the content is longer than 500 characters; content
of at most 500 characters is rendered unchanged. -/
theorem claimC9_snippet_truncation (s : List Char) :
    (snippetChars s).take 500 = s.take 500
    ∧ (snippetChars s).length ≤ 503
    ∧ (snippetChars s = s.take 500 ++ ['.', '.', '.'] ↔ 500 < s.length)
    ∧ (s.length ≤ 500 → snippetChars s = s) := by
  unfold snippetChars
  by_cases h : 500 < s.length
  · rw [if_pos h]
    have hlen : (s.take 500).length = 500 := by
      rw [List.length_take]
      omega
    refine ⟨?_, ?_, ?_, ?_⟩
    · calc ((s.take 500) ++ ['.', '.', '.']).take 500
          = ((s.take 500) ++ ['.', '.', '.']).take (s.take 500).length := by rw [hlen]
        _ = s.take 500 := List.take_left _ _
    · rw [List.length_append, hlen]
      simp
    · simp [h]
    · intro hle
      omega
  · rw [if_neg h]
    have hle : s.length ≤ 500 := by omega
    have htake : s.take 500 = s := List.take_of_length_le hle
    refine ⟨?_, ?_, ?_, ?_⟩
    · rw [List.append_nil, List.take_take]
      simp
    · rw [List.append_nil, List.length_take]
      omega
    · rw [List.append_nil]
      constructor
      · intro heq
        exfalso
        have := congrArg List.length heq
        rw [List.length_append, List.length_take] at this
        simp only [List.length_cons, List.length_nil] at this
        omega
      · intro hlt
        exact absurd hlt h
    · intro _
      rw [List.append_nil]
      exact htake

/-- C10: in the multipart form variant, a string-valued `questions` field
on which `json.loads` raises is wrapped as a one-element question list
containing the raw string, the request passes the non-empty-list
validation with exactly that single question, and a request that reaches
the answering stage returns an answers list of length one. -/
theorem claimC10_raw_string_single_question
    (io : Improved.Oracles) (fd : Improved.FormData) (raw : String)
    (hq : fd.questionsField = some (Improved.PyVal.pstr raw))
    (hj : io.jsonLoads raw = none) :
    Improved.parseFormQuestions io.jsonLoads fd
        = Improved.PyVal.plist [Improved.PyVal.pstr raw]
    ∧ Improved.parseRequest io (Improved.ImpRequest.formReq fd)
        = Except.ok ([Improved.PyVal.pstr raw], fd.documentUrlField, fd.fileField)
    ∧ ∀ (ds : List String) (tr : List Event) (idx : Nat),
        Improved.loadPhase io fd.documentUrlField fd.fileField = (Except.ok ds, tr) →
        io.buildIndex ds = Except.ok idx →
        Improved.runSubmission io (Improved.ImpRequest.formReq fd)
          = (HttpResult.ok [Improved.answerOne io idx (Improved.PyVal.pstr raw)],
             tr ++ [Event.buildIndexCall, Event.queryCall]) := by
  have hparse : Improved.parseFormQuestions io.jsonLoads fd
      = Improved.PyVal.plist [Improved.PyVal.pstr raw] := by
    unfold Improved.parseFormQuestions
    rw [hq]
    dsimp only
    rw [hj]
  have hreq : Improved.parseRequest io (Improved.ImpRequest.formReq fd)
      = Except.ok ([Improved.PyVal.pstr raw], fd.documentUrlField, fd.fileField) := by
    unfold Improved.parseRequest
    dsimp only
    rw [hparse]
    rfl
  refine ⟨hparse, hreq, ?_⟩
  intro ds tr idx hload hidx
  unfold Improved.runSubmission
  rw [hreq]
  dsimp only
  rw [hload]
  dsimp only
  rw [hidx]
  rfl

/-- Witness for C10 at concrete inputs: a form whose `questions` field is
the non-JSON string `what is this?`, with a document URL and all external
calls succeeding. -/
theorem claimC10_raw_string_single_question_witness :
    Improved.parseFormQuestions ioAllOk.jsonLoads
        { questionsField := some (Improved.PyVal.pstr "what is this?"),
          questionFields := [], documentUrlField := some "http://x", fileField := none }
        = Improved.PyVal.plist [Improved.PyVal.pstr "what is this?"]
    ∧ Improved.runSubmission ioAllOk
        (Improved.ImpRequest.formReq
          { questionsField := some (Improved.PyVal.pstr "what is this?"),
            questionFields := [], documentUrlField := some "http://x", fileField := none })
        = (HttpResult.ok
             [Improved.answerOne ioAllOk 0 (Improved.PyVal.pstr "what is this?")],
           [Event.fetchUrl "http://x", Event.createTemp "/tmp/doc2.pdf",
            Event.readFile "/tmp/doc2.pdf", Event.unlink "/tmp/doc2.pdf"]
             ++ [Event.buildIndexCall, Event.queryCall]) :=
  ⟨(claimC10_raw_string_single_question ioAllOk
      { questionsField := some (Improved.PyVal.pstr "what is this?"),
        questionFields := [], documentUrlField := some "http://x", fileField := none }
      "what is this?" rfl rfl).1,
   (claimC10_raw_string_single_question ioAllOk
      { questionsField := some (Improved.PyVal.pstr "what is this?"),
        questionFields := [], documentUrlField := some "http://x", fileField := none }
      "what is this?" rfl rfl).2.2 ["doc1"]
      [Event.fetchUrl "http://x", Event.createTemp "/tmp/doc2.pdf",
       Event.readFile "/tmp/doc2.pdf", Event.unlink "/tmp/doc2.pdf"] 0 rfl rfl⟩

end Spec2Proof
